import Mathlib

/-!
Verification of the LPP daemon (src/src/lpp_daemon.py) against its
natural-language specification.

The daemon is a Python asyncio program.  We shallowly embed the parts of it
that the claims are about:

* the command codec (`fanFrame`, `pumpFrame`, `init_cmds`) as lists of byte
  values (`Int`, since the daemon stores fan and pump values as unvalidated
  Python ints loaded from disk);
* the daemon object state (`DaemonState`) as the fields the claims mention:
  `connected`, `fan_speed`, `pump_mode`, `reconnect_delay`;
* the effectful methods `send_command`, `send_fan_speed`, `send_pump_mode`
  and `process_request` as pure functions from state to
  (result, new state, list of observable effects).  The outcome of the
  underlying BLE write (`write_gatt_char` succeeding or raising) and of the
  state-file write in `_save_state` are external, so they are passed in as
  Boolean parameters `writeOk` / `saveOk`.  `self.client` is non-None whenever
  `self.connected` is true (connect_ble assigns `self.client` before setting
  `connected`), so the guard `not self.connected or not self.client` is
  modelled by the `connected` flag alone;
* the effects as a trace of `TraceItem`s: frames written to the link, writes
  of the state file, and calls to `_schedule_reconnect`.  Each frame and save
  is tagged with the call site that produced it (`Origin`), mirroring which
  line of the Python source performed the write;
* the post-`connect` phase of `connect_ble` (marking connected, the
  `init_device` handshake, the fan/pump resync) as an explicit list of atomic
  actions separated by `await` points, together with an interleaving
  semantics (`SysStep`) in which the concurrently running client handler may
  run a whole request at any yield point.  This mirrors the asyncio
  cooperative scheduler: during each `await asyncio.sleep` of `init_device`,
  a client task can run to completion;
* `_load_state` over an abstract load result (`LoadResult`): the file can be
  absent, unreadable/unparsable (any exception is swallowed), or a parsed
  JSON object whose `fan` / `pump` entries we track when they are integers
  (the only values the daemon itself ever writes, and enough to exhibit the
  range violations at issue);
* the reconnect backoff loop of `_schedule_reconnect` over a list of attempt
  outcomes, where each `connect_ble` call can fail before the delay reset
  at line 173 (delay untouched), fail after it (delay already reset to the
  floor when the exception escapes), or succeed.  The Python delays are
  floats, but every reachable value is an integer obtained by doubling from
  1.0 capped at 60.0, which is exact in binary floating point, so `Nat` is
  a faithful model;
* the device-selection loop of `connect_ble` over the discovery result list,
  with Python string lowering and substring containment on `List Char`;
* the per-line client handling of `handle_client`: a line either fails to
  parse (`json.JSONDecodeError`, answered with an error response) or parses
  to a JSON value; `process_request` calls `.get` on it, which raises
  `AttributeError` on every non-dict value, and that exception is not caught,
  so the connection is closed with no response.
-/

/-! ## Byte frames (command codec) -/

/-- Fan command frame, from `send_fan_speed`:
`bytes([0xfe, 0x1b, 0x01, speed, 0x00, 0x00, 0x00, 0xef])`. -/
def fanFrame (speed : Int) : List Int :=
  [0xfe, 0x1b, 0x01, speed, 0x00, 0x00, 0x00, 0xef]

/-- Pump command frame, from `send_pump_mode`:
`bytes([0xfe, 0x1c, 0x01, 0x3c, mode, 0x00, 0x00, 0xef])`. -/
def pumpFrame (mode : Int) : List Int :=
  [0xfe, 0x1c, 0x01, 0x3c, mode, 0x00, 0x00, 0xef]

/-- The `init_cmds` list of `init_device`, in source order.  The last entry is
the raw two-byte literal `b"sw"`. -/
def init_cmds : List (List Int) :=
  [ [0xfe, 0x1c, 0x01, 0x3c, 0x03, 0x00, 0x00, 0xef],
    [0xfe, 0x1b, 0x01, 0x3c, 0x00, 0x00, 0x00, 0xef],
    [0xfe, 0x1e, 0x01, 0x00, 0xb8, 0xff, 0x00, 0xef],
    [0xfe, 0x33, 0x00, 0x00, 0x00, 0x00, 0x00, 0xef],
    [0x73, 0x77] ]

/-! ## Daemon state and observable effects -/

/-- `RECONNECT_MIN_DELAY = 1.0` (one second). -/
def RECONNECT_MIN_DELAY : Nat := 1

/-- `RECONNECT_MAX_DELAY = 60.0` (sixty seconds). -/
def RECONNECT_MAX_DELAY : Nat := 60

/-- The fields of the `LPPDaemon` object that the claims are about.
`fan_speed` and `pump_mode` are `Int` because `_load_state` copies file
contents into them without validation. -/
structure DaemonState where
  connected : Bool
  fan_speed : Int
  pump_mode : Int
  reconnect_delay : Nat
deriving DecidableEq

/-- The call site that performed a link write or a state-file write:
the `init_device` handshake, the two resync calls in `connect_ble`, or the
client-request path through `process_request`. -/
inductive Origin
  | init
  | resyncFan
  | resyncPump
  | client
deriving DecidableEq

/-- One observable effect of running daemon code: a frame written to the
link (`write_gatt_char`), an attempted state-file write (`_save_state`,
with its success recorded, since a failed write is swallowed), or a call to
`_schedule_reconnect`. -/
inductive TraceItem
  | frame (o : Origin) (data : List Int)
  | save (o : Origin) (ok : Bool) (fan pump : Int)
  | sched
deriving DecidableEq

/-- The state-file contents resulting from replaying a list of effects over
an initial contents: each successful save rewrites the file with the saved
fan and pump values. -/
def diskAfter (d : Option (Int × Int)) : List TraceItem → Option (Int × Int)
  | [] => d
  | TraceItem.save _ true f p :: rest => diskAfter (some (f, p)) rest
  | _ :: rest => diskAfter d rest

/-! ## send_command / send_fan_speed / send_pump_mode -/

/-- `send_command`: returns False when not connected; otherwise writes the
frame (success recorded as a `frame` item) or, if the write raises, sets
`connected = False`, calls `_schedule_reconnect` and returns False. -/
def send_command (o : Origin) (writeOk : Bool) (data : List Int)
    (s : DaemonState) : Bool × DaemonState × List TraceItem :=
  if s.connected = false then (false, s, [])
  else if writeOk then (true, s, [TraceItem.frame o data])
  else (false, { s with connected := false }, [TraceItem.sched])

/-- `send_fan_speed`: sends the fan frame; on success updates `fan_speed`
and, when `save` is true, calls `_save_state` (whose failure is swallowed,
recorded via `saveOk`). -/
def send_fan_speed (o : Origin) (writeOk saveOk : Bool) (speed : Int)
    (save : Bool) (s : DaemonState) : Bool × DaemonState × List TraceItem :=
  match send_command o writeOk (fanFrame speed) s with
  | (true, s1, evs) =>
      let s2 := { s1 with fan_speed := speed }
      if save then (true, s2, evs ++ [TraceItem.save o saveOk s2.fan_speed s2.pump_mode])
      else (true, s2, evs)
  | (false, s1, evs) => (false, s1, evs)

/-- `send_pump_mode`: sends the pump frame; on success updates `pump_mode`
and, when `save` is true, calls `_save_state`. -/
def send_pump_mode (o : Origin) (writeOk saveOk : Bool) (mode : Int)
    (save : Bool) (s : DaemonState) : Bool × DaemonState × List TraceItem :=
  match send_command o writeOk (pumpFrame mode) s with
  | (true, s1, evs) =>
      let s2 := { s1 with pump_mode := mode }
      if save then (true, s2, evs ++ [TraceItem.save o saveOk s2.fan_speed s2.pump_mode])
      else (true, s2, evs)
  | (false, s1, evs) => (false, s1, evs)

/-! ## Client requests and process_request -/

/-- A Python value found under the `value` key of a request.  The only
distinction `process_request` makes is `isinstance(value, int)` (note that a
JSON `true`/`false` is a Python bool, which IS an int, modelled as
`int 1` / `int 0`); everything else fails validation. -/
inductive PyVal
  | int (n : Int)
  | nonInt
deriving DecidableEq

/-- A parsed request object: `cmd` is `request.get('cmd', '')` (missing key
gives the empty string; a non-string cmd compares unequal to every command
name and so behaves like an unknown command), `value` is
`request.get('value')` (`none` when the key is missing). -/
structure Request where
  cmd : String
  value : Option PyVal
deriving DecidableEq

/-- A response dict.  Fields absent from the dict built by the source are
`none`. -/
structure Response where
  ok : Bool
  connected : Option Bool := none
  fan : Option Int := none
  pump : Option Int := none
  error : Option String := none
  message : Option String := none
deriving DecidableEq

/-- `process_request`: dispatch on `cmd`, validating the value range first,
then the connectivity, then sending; mirrors the source branch for branch.
The two external outcomes (`writeOk` for `write_gatt_char`, `saveOk` for the
state-file write) are parameters. -/
def process_request (writeOk saveOk : Bool) (req : Request)
    (s : DaemonState) : Response × DaemonState × List TraceItem :=
  if req.cmd = "status" then
    ({ ok := true, connected := some s.connected,
       fan := some s.fan_speed, pump := some s.pump_mode }, s, [])
  else if req.cmd = "fan" then
    match req.value with
    | some (PyVal.int v) =>
        if ¬ (0 ≤ v ∧ v ≤ 100) then
          ({ ok := false, error := some "Fan value must be 0-100" }, s, [])
        else if s.connected = false then
          ({ ok := false, error := some "Not connected to device" }, s, [])
        else
          let r := send_fan_speed Origin.client writeOk saveOk v true s
          ({ ok := r.1, connected := some r.2.1.connected,
             fan := some r.2.1.fan_speed, pump := some r.2.1.pump_mode },
           r.2.1, r.2.2)
    | _ => ({ ok := false, error := some "Fan value must be 0-100" }, s, [])
  else if req.cmd = "pump" then
    match req.value with
    | some (PyVal.int v) =>
        if ¬ (0 ≤ v ∧ v ≤ 3) then
          ({ ok := false, error := some "Pump mode must be 0-3" }, s, [])
        else if s.connected = false then
          ({ ok := false, error := some "Not connected to device" }, s, [])
        else
          let r := send_pump_mode Origin.client writeOk saveOk v true s
          ({ ok := r.1, connected := some r.2.1.connected,
             fan := some r.2.1.fan_speed, pump := some r.2.1.pump_mode },
           r.2.1, r.2.2)
    | _ => ({ ok := false, error := some "Pump mode must be 0-3" }, s, [])
  else if req.cmd = "reconnect" then
    if s.connected then
      ({ ok := true, connected := some true,
         fan := some s.fan_speed, pump := some s.pump_mode }, s, [])
    else
      ({ ok := true, connected := some false,
         message := some "Reconnection scheduled" }, s, [TraceItem.sched])
  else
    ({ ok := false, error := some ("Unknown command: " ++ req.cmd) }, s, [])

/-- Request dict for a `fan` command carrying a value. -/
def fanReq (v : PyVal) : Request := { cmd := "fan", value := some v }

/-- Request dict for a `pump` command carrying a value. -/
def pumpReq (v : PyVal) : Request := { cmd := "pump", value := some v }

/-! ## Startup state load -/

/-- Outcome of `_load_state` reading the state file: the file is absent
(`STATE_PATH.exists()` false), or opening/parsing raised (including a file
whose JSON top level is not a dict, where `.get` raises and the exception is
swallowed), or a parsed JSON object whose `fan` / `pump` entries, when
present, we track as the integers the daemon itself writes. -/
inductive LoadResult
  | noFile
  | loadFailed
  | loaded (fan pump : Option Int)
deriving DecidableEq

/-- `_load_state`: on a loaded object, copy the entries verbatim with
defaults `fan = 60`, `pump = 0`; any failure leaves the fields untouched. -/
def load_state (r : LoadResult) (s : DaemonState) : DaemonState :=
  match r with
  | LoadResult.noFile => s
  | LoadResult.loadFailed => s
  | LoadResult.loaded f p =>
      { s with fan_speed := f.getD 60, pump_mode := p.getD 0 }

/-- `LPPDaemon.__init__`: connected is false, fan 60, pump 0 (High), backoff
at the floor, then `_load_state` runs. -/
def initDaemon (r : LoadResult) : DaemonState :=
  load_state r
    { connected := false, fan_speed := 60, pump_mode := 0,
      reconnect_delay := RECONNECT_MIN_DELAY }

/-- The daemon state after startup with no state file present. -/
def freshDaemon : DaemonState := initDaemon LoadResult.noFile

example : freshDaemon.fan_speed = 60 := by decide
example : (process_request true true (fanReq (PyVal.int 101)) freshDaemon).1.ok = false := by decide

/-! ## Reconnect backoff (`_schedule_reconnect`) -/

/-- The backoff update after a failed attempt:
`self.reconnect_delay = min(self.reconnect_delay * 2, RECONNECT_MAX_DELAY)`. -/
def backoffStep (d : Nat) : Nat := min (d * 2) RECONNECT_MAX_DELAY

/-- How one `connect_ble` call can turn out, as far as the backoff state
is concerned.  `earlyFail` is a failure before the reset at line 173 (no
matching device in the scan, or the transport connect / start_notify
raised): the call returns False with the delay untouched.  `lateFail` is a
failure after that reset: the call has already executed
`self.reconnect_delay = RECONNECT_MIN_DELAY` when an exception escapes the
remaining body — the live path is the `bytes()` ValueError raised while
building the resync frame at line 104 or 115 when the persisted fan or
pump value is outside byte range (reachable, since `_load_state` copies
file values without validation), every other post-reset operation
swallowing its exceptions — so the call returns False with the delay
already reset to the floor.  `success` runs the whole body, reset
included, and returns True. -/
inductive AttemptOutcome
  | earlyFail
  | lateFail
  | success
deriving DecidableEq

/-- The value of `self.reconnect_delay` right after a `connect_ble` call
with the given outcome: the line-173 reset runs exactly on the paths that
reach it. -/
def connectDelayEffect : AttemptOutcome → Nat → Nat
  | AttemptOutcome.earlyFail, d => d
  | AttemptOutcome.lateFail, _ => RECONNECT_MIN_DELAY
  | AttemptOutcome.success, _ => RECONNECT_MIN_DELAY

/-- Whether the `connect_ble` call returned True. -/
def connectResult : AttemptOutcome → Bool
  | AttemptOutcome.success => true
  | _ => false

/-- The reconnect loop of `_schedule_reconnect`, driven by the outcome of
each `connect_ble` call: sleep the current delay, call `connect_ble`
(which may reset the delay at line 173 even when it goes on to fail),
break on True, otherwise double the possibly-reset delay capped at the
ceiling and loop.  Returns the list of delays slept before each attempt,
in order, and the final `reconnect_delay`. -/
def reconnectDelays : List AttemptOutcome → Nat → List Nat × Nat
  | [], d => ([], d)
  | o :: rest, d =>
      if connectResult o then ([d], connectDelayEffect o d)
      else
        let r := reconnectDelays rest (backoffStep (connectDelayEffect o d))
        (d :: r.1, r.2)

example : (reconnectDelays [AttemptOutcome.earlyFail, AttemptOutcome.earlyFail,
    AttemptOutcome.earlyFail, AttemptOutcome.earlyFail, AttemptOutcome.earlyFail,
    AttemptOutcome.earlyFail, AttemptOutcome.earlyFail] 1).1
    = [1, 2, 4, 8, 16, 32, 60] := by decide
example : (reconnectDelays [AttemptOutcome.earlyFail, AttemptOutcome.earlyFail,
    AttemptOutcome.success] 1).2 = 1 := by decide
example : (reconnectDelays [AttemptOutcome.earlyFail, AttemptOutcome.earlyFail,
    AttemptOutcome.earlyFail, AttemptOutcome.lateFail, AttemptOutcome.earlyFail] 1).1
    = [1, 2, 4, 8, 2] := by decide

/-! ## Device selection in `connect_ble` -/

/-- Python `str.lower()` on the ASCII strings involved. -/
def pyLower (s : List Char) : List Char := s.map Char.toLower

/-- Python `needle in hay` prefix test helper. -/
def listStartsWith : List Char → List Char → Bool
  | [], _ => true
  | _ :: _, [] => false
  | a :: as, b :: bs => a == b && listStartsWith as bs

/-- Python substring containment `needle in hay`. -/
def substrIn (needle : List Char) : List Char → Bool
  | [] => listStartsWith needle []
  | b :: bs => listStartsWith needle (b :: bs) || substrIn needle bs

/-- `DEVICE_NAME = "CoolingSystem"`. -/
def DEVICE_NAME : List Char := "CoolingSystem".toList

/-- One entry of the `BleakScanner.discover` result: an address and an
advertised name (Python `None` when absent; the empty string is also falsy
in the `if d.name` guard). -/
structure BLEDevice where
  address : List Char
  name : Option (List Char)
deriving DecidableEq

/-- The per-device test of the selection loop in `connect_ble`: the device
is taken if the configured address is non-empty and equals its address
case-insensitively, or if its name is truthy and contains `DEVICE_NAME`
case-insensitively.  Both branches `break` with `address = d.address`. -/
def matchesDevice (cfgAddr : List Char) (d : BLEDevice) : Bool :=
  (decide (cfgAddr ≠ []) && decide (pyLower cfgAddr = pyLower d.address))
  || (match d.name with
      | none => false
      | some n => decide (n ≠ []) && substrIn (pyLower DEVICE_NAME) (pyLower n))

/-- The selection loop of `connect_ble`: first device matching either test
wins; `none` when the loop falls through (then `connect_ble` logs
"Device not found" and returns False without connecting). -/
def selectDevice (cfgAddr : List Char) : List BLEDevice → Option (List Char)
  | [] => none
  | d :: rest =>
      if matchesDevice cfgAddr d then some d.address
      else selectDevice cfgAddr rest

/-! ## Per-line client handling (`handle_client`) -/

/-- A parsed JSON value, as far as `process_request` can tell them apart:
only a JSON object has the `.get` method it calls. -/
inductive PyJSON
  | jnull
  | jbool (b : Bool)
  | jnum (n : Int)
  | jstr (s : String)
  | jarr
  | jobj (req : Request)
deriving DecidableEq

/-- Whether a JSON value is an object (a Python dict). -/
def isObj : PyJSON → Bool
  | PyJSON.jobj _ => true
  | _ => false

/-- One line read from the client: either `json.loads` raised
`JSONDecodeError`, or it produced a value. -/
inductive LineInput
  | malformed
  | parsed (v : PyJSON)
deriving DecidableEq

/-- What the daemon does with the line: write a response followed by a
newline, or propagate an uncaught exception, which ends `handle_client` and
closes the connection with no response for this line. -/
inductive LineOutcome
  | replied (resp : Response)
  | closedNoReply
deriving DecidableEq

/-- `await self.process_request(request)` where `request` is the parsed JSON
value: `request.get('cmd', '')` raises `AttributeError` on every non-dict
value. -/
def process_request_top (writeOk saveOk : Bool) (v : PyJSON)
    (s : DaemonState) : Except Unit (Response × DaemonState × List TraceItem) :=
  match v with
  | PyJSON.jobj req => Except.ok (process_request writeOk saveOk req s)
  | _ => Except.error ()

/-- The body of the read loop in `handle_client` for one line: the
`try/except` catches only `json.JSONDecodeError` (answered with the
Invalid JSON response); an exception out of `process_request` is uncaught,
so no response is written and the `finally` block closes the writer. -/
def handleLine (writeOk saveOk : Bool) (inp : LineInput)
    (s : DaemonState) : LineOutcome × DaemonState × List TraceItem :=
  match inp with
  | LineInput.malformed =>
      (LineOutcome.replied { ok := false, error := some "Invalid JSON" }, s, [])
  | LineInput.parsed v =>
      match process_request_top writeOk saveOk v s with
      | Except.ok (resp, s1, evs) => (LineOutcome.replied resp, s1, evs)
      | Except.error _ => (LineOutcome.closedNoReply, s, [])

example : (handleLine true true (LineInput.parsed PyJSON.jarr) freshDaemon).1
    = LineOutcome.closedNoReply := by decide

/-! ## The post-connect phase of `connect_ble` as an interleaved system

After `await self.client.connect()` and `start_notify` succeed,
`connect_ble` performs, with an `await` point between any two of them:
mark connected (and reset backoff), the nine handshake sends of
`init_device` (the five `init_cmds` then the first four again), then the
fan resync and the pump resync (both with `save=False`).  Between any two
of these atomic actions the asyncio scheduler may run the client handler,
which can process a whole request.  `SysStep` is that interleaving. -/

/-- One atomic action of the connect task (the code between two `await`
points of `connect_ble` / `init_device`). -/
inductive ConnAction
  | markConnected
  | sendInit (f : List Int)
  | resyncFan
  | resyncPump
deriving DecidableEq

/-- The handshake frames in send order: `init_cmds` followed by
`init_cmds[:-1]`. -/
def handshakeFrames : List (List Int) := init_cmds ++ init_cmds.dropLast

/-- The whole post-connect script of `connect_ble`, in source order
(the keepalive start that follows is not involved in any claim). -/
def connectScript : List ConnAction :=
  ConnAction.markConnected ::
    (handshakeFrames.map ConnAction.sendInit
      ++ [ConnAction.resyncFan, ConnAction.resyncPump])

/-- Effect of one connect-task action on the daemon state, returning the
new state and the effects.  `markConnected` is lines 172-173 of the source
(connected flag set, backoff reset); the sends go through the same
`send_command` path as everything else, with the resyncs passing
`save=False`. -/
def execConnAction (writeOk : Bool) (a : ConnAction) (d : DaemonState) :
    DaemonState × List TraceItem :=
  match a with
  | ConnAction.markConnected =>
      ({ d with connected := true, reconnect_delay := RECONNECT_MIN_DELAY }, [])
  | ConnAction.sendInit f =>
      ((send_command Origin.init writeOk f d).2.1,
       (send_command Origin.init writeOk f d).2.2)
  | ConnAction.resyncFan =>
      ((send_fan_speed Origin.resyncFan writeOk true d.fan_speed false d).2.1,
       (send_fan_speed Origin.resyncFan writeOk true d.fan_speed false d).2.2)
  | ConnAction.resyncPump =>
      ((send_pump_mode Origin.resyncPump writeOk true d.pump_mode false d).2.1,
       (send_pump_mode Origin.resyncPump writeOk true d.pump_mode false d).2.2)

/-- A snapshot of the interleaved system: the daemon object, the remaining
connect-task script, and the effects performed so far (oldest first). -/
structure Sys where
  daemon : DaemonState
  script : List ConnAction
  trace : List TraceItem
deriving DecidableEq

/-- One scheduler step: either the connect task runs its next atomic action
(with the write outcome chosen by the environment), or the client handler
runs one whole request at this yield point (with its write and save
outcomes chosen by the environment). -/
inductive SysStep : Sys → Sys → Prop
  | conn (w : Bool) (d : DaemonState) (a : ConnAction)
      (rest : List ConnAction) (tr : List TraceItem) :
      SysStep ⟨d, a :: rest, tr⟩
        ⟨(execConnAction w a d).1, rest, tr ++ (execConnAction w a d).2⟩
  | client (w sv : Bool) (req : Request) (d : DaemonState)
      (sc : List ConnAction) (tr : List TraceItem) :
      SysStep ⟨d, sc, tr⟩
        ⟨(process_request w sv req d).2.1, sc,
         tr ++ (process_request w sv req d).2.2⟩

/-- Reachability in the interleaved system. -/
def Reachable (s0 s : Sys) : Prop := Relation.ReflTransGen SysStep s0 s

/-- The system state right after the transport connect of `connect_ble`
succeeds: daemon as it was, full script pending, nothing sent yet on this
session. -/
def startSys (d : DaemonState) : Sys := ⟨d, connectScript, []⟩

/-- A concrete schedule entry, used to build explicit reachable states. -/
inductive SchedItem
  | connStep (writeOk : Bool)
  | clientStep (writeOk saveOk : Bool) (req : Request)
deriving DecidableEq

/-- Run one schedule entry (a connect step on an exhausted script is a
no-op). -/
def execSched (it : SchedItem) (sys : Sys) : Sys :=
  match it, sys with
  | SchedItem.connStep _, ⟨d, [], tr⟩ => ⟨d, [], tr⟩
  | SchedItem.connStep w, ⟨d, a :: rest, tr⟩ =>
      ⟨(execConnAction w a d).1, rest, tr ++ (execConnAction w a d).2⟩
  | SchedItem.clientStep w sv req, ⟨d, sc, tr⟩ =>
      ⟨(process_request w sv req d).2.1, sc,
       tr ++ (process_request w sv req d).2.2⟩

/-- Run a whole schedule. -/
def runSched : List SchedItem → Sys → Sys
  | [], sys => sys
  | it :: rest, sys => runSched rest (execSched it sys)

theorem reachable_execSched (it : SchedItem) (sys : Sys) :
    Reachable sys (execSched it sys) := by
  obtain ⟨d, sc, tr⟩ := sys
  cases it with
  | connStep w =>
      cases sc with
      | nil => exact Relation.ReflTransGen.refl
      | cons a rest =>
          exact Relation.ReflTransGen.single (SysStep.conn w d a rest tr)
  | clientStep w sv req =>
      exact Relation.ReflTransGen.single (SysStep.client w sv req d sc tr)

theorem reachable_runSched (sched : List SchedItem) (sys : Sys) :
    Reachable sys (runSched sched sys) := by
  induction sched generalizing sys with
  | nil => exact Relation.ReflTransGen.refl
  | cons it rest ih =>
      exact Relation.ReflTransGen.trans (reachable_execSched it sys)
        (ih (execSched it sys))

/-! ## Trace predicates -/

/-- Is this item a frame written from the given call site? -/
def isFrameOf (o : Origin) : TraceItem → Bool
  | TraceItem.frame o1 _ => o1 == o
  | _ => false

/-- Is this item one of the two resync frames of `connect_ble`? -/
def isResyncFrame (t : TraceItem) : Bool :=
  isFrameOf Origin.resyncFan t || isFrameOf Origin.resyncPump t

/-- Is this item a frame written on behalf of a client request? -/
def isClientFrame : TraceItem → Bool := isFrameOf Origin.client

/-- Every save item in the trace was made on behalf of a client request
(non-save items pass trivially). -/
def saveIsClient : TraceItem → Bool
  | TraceItem.save o _ _ _ => o == Origin.client
  | _ => true

/-- `followedBy p q tr` holds when some item satisfying `p` occurs strictly
before some item satisfying `q` in the trace. -/
def followedBy (p q : TraceItem → Bool) : List TraceItem → Bool
  | [] => false
  | x :: rest => (p x && rest.any q) || followedBy p q rest

theorem followedBy_singleton (p q : TraceItem → Bool) (t : TraceItem) :
    followedBy p q [t] = false := by
  simp [followedBy]

theorem followedBy_false_of_no_q (p q : TraceItem → Bool)
    (tr : List TraceItem) (h : tr.any q = false) :
    followedBy p q tr = false := by
  induction tr with
  | nil => rfl
  | cons x tr ih =>
      rw [List.any_cons] at h
      rcases Bool.or_eq_false_iff.mp h with ⟨_, htr⟩
      rw [followedBy, ih htr, Bool.or_false, htr, Bool.and_false]

theorem followedBy_append_false (p q : TraceItem → Bool)
    (tr ext : List TraceItem)
    (h1 : followedBy p q tr = false) (h2 : followedBy p q ext = false)
    (h3 : ext.any q = false ∨ tr.any p = false) :
    followedBy p q (tr ++ ext) = false := by
  induction tr with
  | nil => simpa using h2
  | cons x tr ih =>
      rw [followedBy, Bool.or_eq_false_iff] at h1
      obtain ⟨h1a, h1b⟩ := h1
      rw [List.cons_append, followedBy, Bool.or_eq_false_iff]
      refine ⟨?_, ?_⟩
      · rw [List.any_append]
        cases hp : p x with
        | false => rw [Bool.false_and]
        | true =>
            rw [hp, Bool.true_and] at h1a
            have hq : ext.any q = false := by
              rcases h3 with h | h
              · exact h
              · rw [List.any_cons, hp, Bool.true_or] at h
                exact absurd h (by simp)
            rw [h1a, hq, Bool.or_false, Bool.and_false]
      · refine ih h1b ?_
        rcases h3 with h | h
        · exact Or.inl h
        · rw [List.any_cons, Bool.or_eq_false_iff] at h
          exact Or.inr h.2

/-! ## Which call sites produce which trace items -/

/-- Items a client request can put in the trace: frames and saves tagged
`client`, and `_schedule_reconnect` calls. -/
def clientish : TraceItem → Bool
  | TraceItem.frame o _ => o == Origin.client
  | TraceItem.save o _ _ _ => o == Origin.client
  | TraceItem.sched => true

theorem clientish_item (t : TraceItem) (h : clientish t = true) :
    isFrameOf Origin.init t = false ∧ isFrameOf Origin.resyncFan t = false
    ∧ isFrameOf Origin.resyncPump t = false ∧ isResyncFrame t = false
    ∧ saveIsClient t = true := by
  cases t with
  | frame o data =>
      cases o <;> simp_all [clientish, isFrameOf, isResyncFrame, saveIsClient]
  | save o ok f p =>
      cases o <;> simp_all [clientish, isFrameOf, isResyncFrame, saveIsClient]
  | sched => simp [isFrameOf, isResyncFrame, saveIsClient]

theorem clientish_list (ev : List TraceItem) (h : ev.all clientish = true) :
    ev.any (isFrameOf Origin.init) = false
    ∧ ev.any (isFrameOf Origin.resyncFan) = false
    ∧ ev.any (isFrameOf Origin.resyncPump) = false
    ∧ ev.any isResyncFrame = false
    ∧ ev.all saveIsClient = true := by
  rw [List.all_eq_true] at h
  refine ⟨?_, ?_, ?_, ?_, ?_⟩
  · rw [List.any_eq_false]
    intro t ht
    exact fun hc => by rw [(clientish_item t (h t ht)).1] at hc; cases hc
  · rw [List.any_eq_false]
    intro t ht
    exact fun hc => by rw [(clientish_item t (h t ht)).2.1] at hc; cases hc
  · rw [List.any_eq_false]
    intro t ht
    exact fun hc => by rw [(clientish_item t (h t ht)).2.2.1] at hc; cases hc
  · rw [List.any_eq_false]
    intro t ht
    exact fun hc => by rw [(clientish_item t (h t ht)).2.2.2.1] at hc; cases hc
  · rw [List.all_eq_true]
    intro t ht
    exact (clientish_item t (h t ht)).2.2.2.2

theorem execConn_sendInit_events (w : Bool) (f : List Int) (d : DaemonState) :
    (execConnAction w (ConnAction.sendInit f) d).2 = []
    ∨ (execConnAction w (ConnAction.sendInit f) d).2
        = [TraceItem.frame Origin.init f]
    ∨ (execConnAction w (ConnAction.sendInit f) d).2 = [TraceItem.sched] := by
  cases hc : d.connected <;> cases w <;> simp [execConnAction, send_command, hc]

theorem execConn_resyncFan_events (w : Bool) (d : DaemonState) :
    (execConnAction w ConnAction.resyncFan d).2 = []
    ∨ (execConnAction w ConnAction.resyncFan d).2
        = [TraceItem.frame Origin.resyncFan (fanFrame d.fan_speed)]
    ∨ (execConnAction w ConnAction.resyncFan d).2 = [TraceItem.sched] := by
  cases hc : d.connected <;> cases w <;>
    simp [execConnAction, send_fan_speed, send_command, hc]

theorem execConn_resyncPump_events (w : Bool) (d : DaemonState) :
    (execConnAction w ConnAction.resyncPump d).2 = []
    ∨ (execConnAction w ConnAction.resyncPump d).2
        = [TraceItem.frame Origin.resyncPump (pumpFrame d.pump_mode)]
    ∨ (execConnAction w ConnAction.resyncPump d).2 = [TraceItem.sched] := by
  cases hc : d.connected <;> cases w <;>
    simp [execConnAction, send_pump_mode, send_command, hc]

theorem connectScript_length : connectScript.length = 12 := by decide

/-- The fan resync is the next-to-last action of the connect script, so the
remaining script after it is exactly the pump resync. -/
theorem resyncFan_rest (rest : List ConnAction)
    (h : (ConnAction.resyncFan :: rest) <:+ connectScript) :
    rest = [ConnAction.resyncPump] := by
  obtain ⟨t, ht⟩ := h
  have hd : connectScript.drop t.length = ConnAction.resyncFan :: rest := by
    rw [← ht, List.drop_left]
  have hL := congrArg List.length ht
  rw [List.length_append, List.length_cons, connectScript_length] at hL
  have hlen : t.length ≤ 11 := by omega
  set n := t.length with hn
  interval_cases n <;>
    [skip; skip; skip; skip; skip; skip; skip; skip; skip; skip;
     (rw [show connectScript.drop 10
            = [ConnAction.resyncFan, ConnAction.resyncPump] from by decide] at hd
      injection hd with h1 h2
      exact h2.symm);
     skip] <;>
    (have hh := congrArg List.head? hd
     rw [List.head?_cons] at hh
     exact absurd hh (by decide))

/-- The pump resync is the last action of the connect script, so nothing
remains after it. -/
theorem resyncPump_rest (rest : List ConnAction)
    (h : (ConnAction.resyncPump :: rest) <:+ connectScript) :
    rest = [] := by
  obtain ⟨t, ht⟩ := h
  have hd : connectScript.drop t.length = ConnAction.resyncPump :: rest := by
    rw [← ht, List.drop_left]
  have hL := congrArg List.length ht
  rw [List.length_append, List.length_cons, connectScript_length] at hL
  have hlen : t.length ≤ 11 := by omega
  set n := t.length with hn
  interval_cases n <;>
    [skip; skip; skip; skip; skip; skip; skip; skip; skip; skip; skip;
     (rw [show connectScript.drop 11
            = [ConnAction.resyncPump] from by decide] at hd
      injection hd with h1 h2
      exact h2.symm)] <;>
    (have hh := congrArg List.head? hd
     rw [List.head?_cons] at hh
     exact absurd hh (by decide))

theorem any_resync_split (tr : List TraceItem)
    (h : tr.any isResyncFrame = false) :
    tr.any (isFrameOf Origin.resyncFan) = false
    ∧ tr.any (isFrameOf Origin.resyncPump) = false := by
  rw [List.any_eq_false] at h
  constructor <;> rw [List.any_eq_false] <;> intro t ht hc <;>
    exact h t ht (by simp [isResyncFrame, hc])

theorem send_command_client_events (w : Bool) (data : List Int)
    (s : DaemonState) :
    ((send_command Origin.client w data s).2.2).all clientish = true := by
  cases hc : s.connected <;> cases w <;> simp [send_command, hc, clientish]

theorem send_fan_speed_client_events (w sv : Bool) (v : Int) (save : Bool)
    (s : DaemonState) :
    ((send_fan_speed Origin.client w sv v save s).2.2).all clientish = true := by
  cases hc : s.connected <;> cases w <;> cases save <;>
    simp [send_fan_speed, send_command, hc, clientish]

theorem send_pump_mode_client_events (w sv : Bool) (v : Int) (save : Bool)
    (s : DaemonState) :
    ((send_pump_mode Origin.client w sv v save s).2.2).all clientish = true := by
  cases hc : s.connected <;> cases w <;> cases save <;>
    simp [send_pump_mode, send_command, hc, clientish]

theorem process_request_client_events (w sv : Bool) (req : Request)
    (s : DaemonState) :
    ((process_request w sv req s).2.2).all clientish = true := by
  unfold process_request
  split
  · rfl
  split
  · match hv : req.value with
    | some (PyVal.int v) =>
        dsimp only
        split
        · rfl
        split
        · rfl
        exact send_fan_speed_client_events w sv v true s
    | some PyVal.nonInt => rfl
    | none => rfl
  split
  · match hv : req.value with
    | some (PyVal.int v) =>
        dsimp only
        split
        · rfl
        split
        · rfl
        exact send_pump_mode_client_events w sv v true s
    | some PyVal.nonInt => rfl
    | none => rfl
  split
  · split
    · rfl
    · simp [clientish]
  · rfl

theorem traceInv_extend (tr ext : List TraceItem)
    (h1 : followedBy isResyncFrame (isFrameOf Origin.init) tr = false)
    (h2 : followedBy (isFrameOf Origin.resyncPump)
            (isFrameOf Origin.resyncFan) tr = false)
    (h3 : tr.all saveIsClient = true)
    (e1 : ext.any (isFrameOf Origin.init) = false
          ∨ tr.any isResyncFrame = false)
    (e2 : ext.any (isFrameOf Origin.resyncFan) = false
          ∨ tr.any (isFrameOf Origin.resyncPump) = false)
    (e3 : ext.all saveIsClient = true)
    (e4 : followedBy isResyncFrame (isFrameOf Origin.init) ext = false)
    (e5 : followedBy (isFrameOf Origin.resyncPump)
            (isFrameOf Origin.resyncFan) ext = false) :
    followedBy isResyncFrame (isFrameOf Origin.init) (tr ++ ext) = false
    ∧ followedBy (isFrameOf Origin.resyncPump)
        (isFrameOf Origin.resyncFan) (tr ++ ext) = false
    ∧ (tr ++ ext).all saveIsClient = true := by
  refine ⟨followedBy_append_false _ _ _ _ h1 e4 e1,
    followedBy_append_false _ _ _ _ h2 e5 e2, ?_⟩
  simp [List.all_append, h3, e3]

/-- The invariant of the interleaved connect phase: the remaining script is
a suffix of the full script; once a resync frame has been written the
corresponding actions are behind us; no handshake frame is ever written
after a resync frame; the fan resync is never written after the pump
resync; and every state-file write so far came from a client request. -/
structure ConnInv (sys : Sys) : Prop where
  suf : sys.script <:+ connectScript
  fanDone : sys.trace.any (isFrameOf Origin.resyncFan) = true →
    ConnAction.resyncFan ∉ sys.script
  pumpDone : sys.trace.any (isFrameOf Origin.resyncPump) = true →
    ConnAction.resyncPump ∉ sys.script
  pumpAfterFan : sys.trace.any (isFrameOf Origin.resyncPump) = true →
    ConnAction.resyncFan ∉ sys.script
  initDone : sys.trace.any isResyncFrame = true →
    ∀ f, ConnAction.sendInit f ∉ sys.script
  noInitAfterResync :
    followedBy isResyncFrame (isFrameOf Origin.init) sys.trace = false
  noFanAfterPump : followedBy (isFrameOf Origin.resyncPump)
    (isFrameOf Origin.resyncFan) sys.trace = false
  savesClient : sys.trace.all saveIsClient = true

theorem connInv_step {s1 s2 : Sys} (hstep : SysStep s1 s2)
    (hinv : ConnInv s1) : ConnInv s2 := by
  obtain ⟨hsuf, hfan, hpump, hpf, hinit, hfb1, hfb2, hsaves⟩ := hinv
  cases hstep with
  | client w sv req d sc tr =>
      have hev := process_request_client_events w sv req d
      obtain ⟨q1, q2, q3, q4, q5⟩ := clientish_list _ hev
      obtain ⟨g1, g2, g3⟩ := traceInv_extend tr _ hfb1 hfb2 hsaves
        (Or.inl q1) (Or.inl q2) q5
        (followedBy_false_of_no_q _ _ _ q1)
        (followedBy_false_of_no_q _ _ _ q2)
      refine ⟨hsuf, ?_, ?_, ?_, ?_, g1, g2, g3⟩
      · intro h
        rw [List.any_append, q2, Bool.or_false] at h
        exact hfan h
      · intro h
        rw [List.any_append, q3, Bool.or_false] at h
        exact hpump h
      · intro h
        rw [List.any_append, q3, Bool.or_false] at h
        exact hpf h
      · intro h
        rw [List.any_append, q4, Bool.or_false] at h
        exact hinit h
  | conn w d a rest tr =>
      have hsuf' : rest <:+ connectScript :=
        (List.suffix_cons a rest).trans hsuf
      cases a with
      | markConnected =>
          refine ⟨hsuf', ?_, ?_, ?_, ?_, ?_, ?_, ?_⟩ <;>
            simp only [execConnAction, List.append_nil]
          · exact fun h hm => hfan h (List.mem_cons_of_mem _ hm)
          · exact fun h hm => hpump h (List.mem_cons_of_mem _ hm)
          · exact fun h hm => hpf h (List.mem_cons_of_mem _ hm)
          · exact fun h f hm => hinit h f (List.mem_cons_of_mem _ hm)
          · exact hfb1
          · exact hfb2
          · exact hsaves
      | sendInit f =>
          have hnores : tr.any isResyncFrame = false := by
            cases hx : tr.any isResyncFrame with
            | false => rfl
            | true => exact absurd (List.mem_cons_self _ _) (hinit hx f)
          obtain ⟨hfanF, hpumpF⟩ := any_resync_split tr hnores
          rcases execConn_sendInit_events w f d with he | he | he <;> rw [he]
          · rw [List.append_nil]
            refine ⟨hsuf', ?_, ?_, ?_, ?_, hfb1, hfb2, hsaves⟩
            · exact fun h hm => hfan h (List.mem_cons_of_mem _ hm)
            · exact fun h hm => hpump h (List.mem_cons_of_mem _ hm)
            · exact fun h hm => hpf h (List.mem_cons_of_mem _ hm)
            · exact fun h f1 hm => hinit h f1 (List.mem_cons_of_mem _ hm)
          · have eFan : (List.any [TraceItem.frame Origin.init f]
                (isFrameOf Origin.resyncFan)) = false := rfl
            have ePump : (List.any [TraceItem.frame Origin.init f]
                (isFrameOf Origin.resyncPump)) = false := rfl
            have eRes : (List.any [TraceItem.frame Origin.init f]
                isResyncFrame) = false := rfl
            obtain ⟨g1, g2, g3⟩ := traceInv_extend tr _ hfb1 hfb2 hsaves
              (Or.inr hnores) (Or.inl eFan) rfl
              (followedBy_singleton _ _ _) (followedBy_singleton _ _ _)
            refine ⟨hsuf', ?_, ?_, ?_, ?_, g1, g2, g3⟩
            · intro h
              rw [List.any_append, eFan, Bool.or_false, hfanF] at h
              exact Bool.noConfusion h
            · intro h
              rw [List.any_append, ePump, Bool.or_false, hpumpF] at h
              exact Bool.noConfusion h
            · intro h
              rw [List.any_append, ePump, Bool.or_false, hpumpF] at h
              exact Bool.noConfusion h
            · intro h
              rw [List.any_append, eRes, Bool.or_false, hnores] at h
              exact Bool.noConfusion h
          · have eFan : (List.any [TraceItem.sched]
                (isFrameOf Origin.resyncFan)) = false := rfl
            have ePump : (List.any [TraceItem.sched]
                (isFrameOf Origin.resyncPump)) = false := rfl
            have eRes : (List.any [TraceItem.sched] isResyncFrame) = false := rfl
            have eIn : (List.any [TraceItem.sched]
                (isFrameOf Origin.init)) = false := rfl
            obtain ⟨g1, g2, g3⟩ := traceInv_extend tr _ hfb1 hfb2 hsaves
              (Or.inl eIn) (Or.inl eFan) rfl
              (followedBy_singleton _ _ _) (followedBy_singleton _ _ _)
            refine ⟨hsuf', ?_, ?_, ?_, ?_, g1, g2, g3⟩
            · intro h
              rw [List.any_append, eFan, Bool.or_false] at h
              exact fun hm => hfan h (List.mem_cons_of_mem _ hm)
            · intro h
              rw [List.any_append, ePump, Bool.or_false] at h
              exact fun hm => hpump h (List.mem_cons_of_mem _ hm)
            · intro h
              rw [List.any_append, ePump, Bool.or_false] at h
              exact fun hm => hpf h (List.mem_cons_of_mem _ hm)
            · intro h
              rw [List.any_append, eRes, Bool.or_false] at h
              exact fun f1 hm => hinit h f1 (List.mem_cons_of_mem _ hm)
      | resyncFan =>
          have hrest : rest = [ConnAction.resyncPump] := resyncFan_rest rest hsuf
          subst hrest
          have hnopump : tr.any (isFrameOf Origin.resyncPump) = false := by
            cases hx : tr.any (isFrameOf Origin.resyncPump) with
            | false => rfl
            | true => exact absurd (List.mem_cons_self _ _) (hpf hx)
          rcases execConn_resyncFan_events w d with he | he | he <;> rw [he]
          · rw [List.append_nil]
            refine ⟨hsuf', ?_, ?_, ?_, ?_, hfb1, hfb2, hsaves⟩
            · exact fun h hm => hfan h (List.mem_cons_of_mem _ hm)
            · exact fun h hm => hpump h (List.mem_cons_of_mem _ hm)
            · exact fun h hm => hpf h (List.mem_cons_of_mem _ hm)
            · exact fun h f1 hm => hinit h f1 (List.mem_cons_of_mem _ hm)
          · have eInit : (List.any
                [TraceItem.frame Origin.resyncFan (fanFrame d.fan_speed)]
                (isFrameOf Origin.init)) = false := rfl
            have ePump : (List.any
                [TraceItem.frame Origin.resyncFan (fanFrame d.fan_speed)]
                (isFrameOf Origin.resyncPump)) = false := rfl
            obtain ⟨g1, g2, g3⟩ := traceInv_extend tr _ hfb1 hfb2 hsaves
              (Or.inl eInit) (Or.inr hnopump) rfl
              (followedBy_singleton _ _ _) (followedBy_singleton _ _ _)
            refine ⟨hsuf', ?_, ?_, ?_, ?_, g1, g2, g3⟩
            · intro h
              simp
            · intro h
              rw [List.any_append, ePump, Bool.or_false, hnopump] at h
              exact Bool.noConfusion h
            · intro h
              rw [List.any_append, ePump, Bool.or_false, hnopump] at h
              exact Bool.noConfusion h
            · intro h f1
              simp
          · have eFan : (List.any [TraceItem.sched]
                (isFrameOf Origin.resyncFan)) = false := rfl
            have ePump : (List.any [TraceItem.sched]
                (isFrameOf Origin.resyncPump)) = false := rfl
            have eRes : (List.any [TraceItem.sched] isResyncFrame) = false := rfl
            have eIn : (List.any [TraceItem.sched]
                (isFrameOf Origin.init)) = false := rfl
            obtain ⟨g1, g2, g3⟩ := traceInv_extend tr _ hfb1 hfb2 hsaves
              (Or.inl eIn) (Or.inl eFan) rfl
              (followedBy_singleton _ _ _) (followedBy_singleton _ _ _)
            refine ⟨hsuf', ?_, ?_, ?_, ?_, g1, g2, g3⟩
            · intro h
              rw [List.any_append, eFan, Bool.or_false] at h
              exact fun hm => hfan h (List.mem_cons_of_mem _ hm)
            · intro h
              rw [List.any_append, ePump, Bool.or_false] at h
              exact fun hm => hpump h (List.mem_cons_of_mem _ hm)
            · intro h
              rw [List.any_append, ePump, Bool.or_false] at h
              exact fun hm => hpf h (List.mem_cons_of_mem _ hm)
            · intro h
              rw [List.any_append, eRes, Bool.or_false] at h
              exact fun f1 hm => hinit h f1 (List.mem_cons_of_mem _ hm)
      | resyncPump =>
          have hrest : rest = [] := resyncPump_rest rest hsuf
          subst hrest
          rcases execConn_resyncPump_events w d with he | he | he <;> rw [he]
          · rw [List.append_nil]
            refine ⟨hsuf', ?_, ?_, ?_, ?_, hfb1, hfb2, hsaves⟩ <;>
              simp
          · have eInit : (List.any
                [TraceItem.frame Origin.resyncPump (pumpFrame d.pump_mode)]
                (isFrameOf Origin.init)) = false := rfl
            have eFan : (List.any
                [TraceItem.frame Origin.resyncPump (pumpFrame d.pump_mode)]
                (isFrameOf Origin.resyncFan)) = false := rfl
            obtain ⟨g1, g2, g3⟩ := traceInv_extend tr _ hfb1 hfb2 hsaves
              (Or.inl eInit) (Or.inl eFan) rfl
              (followedBy_singleton _ _ _) (followedBy_singleton _ _ _)
            refine ⟨hsuf', ?_, ?_, ?_, ?_, g1, g2, g3⟩ <;>
              simp
          · have eFan : (List.any [TraceItem.sched]
                (isFrameOf Origin.resyncFan)) = false := rfl
            have eIn : (List.any [TraceItem.sched]
                (isFrameOf Origin.init)) = false := rfl
            obtain ⟨g1, g2, g3⟩ := traceInv_extend tr _ hfb1 hfb2 hsaves
              (Or.inl eIn) (Or.inl eFan) rfl
              (followedBy_singleton _ _ _) (followedBy_singleton _ _ _)
            refine ⟨hsuf', ?_, ?_, ?_, ?_, g1, g2, g3⟩ <;>
              simp

theorem connInv_reachable (d0 : DaemonState) (sys : Sys)
    (h : Reachable (startSys d0) sys) : ConnInv sys := by
  induction h with
  | refl =>
      refine ⟨List.suffix_refl _, ?_, ?_, ?_, ?_, rfl, rfl, rfl⟩ <;>
        exact fun h => Bool.noConfusion h
  | tail hsteps hstep ih => exact connInv_step hstep ih

/-! ## Claim theorems -/

/-- Claim C8: for every speed in [0,100] the encoded fan frame is exactly
the 8 bytes fe 1b 01 speed 00 00 00 ef, and for every mode in 0..3 the
encoded pump frame is exactly fe 1c 01 3c mode 00 00 ef: 8-byte frames with
header 0xfe, the stated opcode at offset 1, the value at a fixed offset
(3 for fan, 4 for pump, with the fixed sub-opcode 0x3c at offset 3), and
trailer 0xef. -/
theorem C8_frame_encoding :
    ∀ (speed mode : Int), 0 ≤ speed → speed ≤ 100 → 0 ≤ mode → mode ≤ 3 →
      (fanFrame speed = [0xfe, 0x1b, 0x01, speed, 0x00, 0x00, 0x00, 0xef]
       ∧ (fanFrame speed).length = 8
       ∧ (fanFrame speed).head? = some 0xfe
       ∧ (fanFrame speed).getLast? = some 0xef
       ∧ (fanFrame speed).get? 1 = some 0x1b
       ∧ (fanFrame speed).get? 3 = some speed)
      ∧ (pumpFrame mode = [0xfe, 0x1c, 0x01, 0x3c, mode, 0x00, 0x00, 0xef]
       ∧ (pumpFrame mode).length = 8
       ∧ (pumpFrame mode).head? = some 0xfe
       ∧ (pumpFrame mode).getLast? = some 0xef
       ∧ (pumpFrame mode).get? 1 = some 0x1c
       ∧ (pumpFrame mode).get? 3 = some 0x3c
       ∧ (pumpFrame mode).get? 4 = some mode) := by
  intro speed mode h1 h2 h3 h4
  exact ⟨⟨rfl, rfl, rfl, rfl, rfl, rfl⟩, rfl, rfl, rfl, rfl, rfl, rfl, rfl⟩

/-- Witness for C8 at speed 50, mode 2. -/
theorem C8_frame_encoding_witness :
    fanFrame 50 = [0xfe, 0x1b, 0x01, 50, 0x00, 0x00, 0x00, 0xef]
    ∧ pumpFrame 2 = [0xfe, 0x1c, 0x01, 0x3c, 2, 0x00, 0x00, 0xef] :=
  ⟨(C8_frame_encoding 50 2 (by decide) (by decide) (by decide) (by decide)).1.1,
   (C8_frame_encoding 50 2 (by decide) (by decide) (by decide) (by decide)).2.1⟩

/-- Claim C3: an out-of-range fan value (outside [0,100]) or pump value
(outside 0..3), and likewise a non-integer or missing value, is rejected
with ok=false and the corresponding error string, with no frame written,
no state-file write, and the in-memory state returned unchanged — and this
happens before the connectivity check, for every state including
disconnected ones (the state `s` is universally quantified and returned
verbatim). -/
theorem C3_out_of_range_rejected :
    ∀ (s : DaemonState) (w sv : Bool) (v : Int) (d0 : Option (Int × Int)),
      (¬ (0 ≤ v ∧ v ≤ 100) →
        process_request w sv (fanReq (PyVal.int v)) s
          = ({ ok := false, error := some "Fan value must be 0-100" }, s, [])
        ∧ diskAfter d0 (process_request w sv (fanReq (PyVal.int v)) s).2.2 = d0)
      ∧ (¬ (0 ≤ v ∧ v ≤ 3) →
        process_request w sv (pumpReq (PyVal.int v)) s
          = ({ ok := false, error := some "Pump mode must be 0-3" }, s, [])
        ∧ diskAfter d0 (process_request w sv (pumpReq (PyVal.int v)) s).2.2 = d0)
      ∧ process_request w sv (fanReq PyVal.nonInt) s
          = ({ ok := false, error := some "Fan value must be 0-100" }, s, [])
      ∧ process_request w sv (pumpReq PyVal.nonInt) s
          = ({ ok := false, error := some "Pump mode must be 0-3" }, s, []) := by
  intro s w sv v d0
  refine ⟨?_, ?_, ?_, ?_⟩
  · intro h
    have he : process_request w sv (fanReq (PyVal.int v)) s
        = ({ ok := false, error := some "Fan value must be 0-100" }, s, []) := by
      simp [process_request, fanReq, h]
    exact ⟨he, by rw [he]; rfl⟩
  · intro h
    have he : process_request w sv (pumpReq (PyVal.int v)) s
        = ({ ok := false, error := some "Pump mode must be 0-3" }, s, []) := by
      simp [process_request, pumpReq, h]
    exact ⟨he, by rw [he]; rfl⟩
  · simp [process_request, fanReq]
  · simp [process_request, pumpReq]

/-- Witness for C3 at fan value 101 and pump value 4 on the fresh daemon
state. -/
theorem C3_out_of_range_rejected_witness :
    process_request true true (fanReq (PyVal.int 101)) freshDaemon
      = ({ ok := false, error := some "Fan value must be 0-100" },
         freshDaemon, [])
    ∧ process_request true true (pumpReq (PyVal.int 4)) freshDaemon
      = ({ ok := false, error := some "Pump mode must be 0-3" },
         freshDaemon, []) :=
  ⟨((C3_out_of_range_rejected freshDaemon true true 101 none).1
      (by decide)).1,
   ((C3_out_of_range_rejected freshDaemon true true 4 none).2.1
      (by decide)).1⟩

/-- Claim C4: every in-range fan or pump request issued while disconnected
returns ok=false with the "Not connected to device" error, writes no frame,
no state-file entry, and leaves the in-memory state unchanged. -/
theorem C4_not_connected_rejected :
    ∀ (s : DaemonState) (w sv : Bool) (v u : Int) (d0 : Option (Int × Int)),
      s.connected = false → 0 ≤ v → v ≤ 100 → 0 ≤ u → u ≤ 3 →
      (process_request w sv (fanReq (PyVal.int v)) s
        = ({ ok := false, error := some "Not connected to device" }, s, [])
       ∧ diskAfter d0 (process_request w sv (fanReq (PyVal.int v)) s).2.2 = d0)
      ∧ (process_request w sv (pumpReq (PyVal.int u)) s
        = ({ ok := false, error := some "Not connected to device" }, s, [])
       ∧ diskAfter d0 (process_request w sv (pumpReq (PyVal.int u)) s).2.2 = d0) := by
  intro s w sv v u d0 hc h1 h2 h3 h4
  have hf : process_request w sv (fanReq (PyVal.int v)) s
      = ({ ok := false, error := some "Not connected to device" }, s, []) := by
    simp [process_request, fanReq, hc, h1, h2]
  have hp : process_request w sv (pumpReq (PyVal.int u)) s
      = ({ ok := false, error := some "Not connected to device" }, s, []) := by
    simp [process_request, pumpReq, hc, h3, h4]
  exact ⟨⟨hf, by rw [hf]; rfl⟩, hp, by rw [hp]; rfl⟩

/-- Witness for C4 at fan value 50 and pump value 2 on the fresh
(disconnected) daemon state. -/
theorem C4_not_connected_rejected_witness :
    process_request true true (fanReq (PyVal.int 50)) freshDaemon
      = ({ ok := false, error := some "Not connected to device" },
         freshDaemon, []) :=
  ((C4_not_connected_rejected freshDaemon true true 50 2 none
      (by decide) (by decide) (by decide) (by decide) (by decide)).1).1

/-- Claim C9: when the frame write succeeds but the state-file write fails
(writeOk true, saveOk false), the in-memory state is still updated to the
requested value, the response still reports ok=true with the new value, the
frame and the (failed) save attempt are the only effects, and the on-disk
contents are unchanged — the storage failure is never surfaced to the
client. -/
theorem C9_save_failure_still_ok :
    ∀ (s : DaemonState) (v u : Int) (d0 : Option (Int × Int)),
      s.connected = true → 0 ≤ v → v ≤ 100 → 0 ≤ u → u ≤ 3 →
      ((process_request true false (fanReq (PyVal.int v)) s).1.ok = true
       ∧ (process_request true false (fanReq (PyVal.int v)) s).2.1.fan_speed = v
       ∧ (process_request true false (fanReq (PyVal.int v)) s).1.fan = some v
       ∧ (process_request true false (fanReq (PyVal.int v)) s).2.2
           = [TraceItem.frame Origin.client (fanFrame v),
              TraceItem.save Origin.client false v s.pump_mode]
       ∧ diskAfter d0 (process_request true false (fanReq (PyVal.int v)) s).2.2 = d0)
      ∧ ((process_request true false (pumpReq (PyVal.int u)) s).1.ok = true
       ∧ (process_request true false (pumpReq (PyVal.int u)) s).2.1.pump_mode = u
       ∧ (process_request true false (pumpReq (PyVal.int u)) s).1.pump = some u
       ∧ (process_request true false (pumpReq (PyVal.int u)) s).2.2
           = [TraceItem.frame Origin.client (pumpFrame u),
              TraceItem.save Origin.client false s.fan_speed u]
       ∧ diskAfter d0 (process_request true false (pumpReq (PyVal.int u)) s).2.2 = d0) := by
  intro s v u d0 hc h1 h2 h3 h4
  refine ⟨⟨?_, ?_, ?_, ?_, ?_⟩, ?_, ?_, ?_, ?_, ?_⟩ <;>
    simp [process_request, fanReq, pumpReq, send_fan_speed, send_pump_mode,
      send_command, hc, h1, h2, h3, h4, diskAfter]

/-- Witness for C9 at fan value 42 and pump value 3 on a connected state. -/
theorem C9_save_failure_still_ok_witness :
    (process_request true false (fanReq (PyVal.int 42))
        { connected := true, fan_speed := 60, pump_mode := 0,
          reconnect_delay := 1 }).1.ok = true :=
  ((C9_save_failure_still_ok
      { connected := true, fan_speed := 60, pump_mode := 0,
        reconnect_delay := 1 } 42 3 none
      (by decide) (by decide) (by decide) (by decide) (by decide)).1).1

/-- Claim C10: a client line that parses as JSON but is not a JSON object
(number, string, array, boolean, null) makes `process_request` raise an
uncaught AttributeError, so the connection is closed with no response and
the daemon state is untouched — in contrast with an unparsable line (which
gets the Invalid JSON error response) and an unknown command inside an
object (which gets the Unknown command error response). -/
theorem C10_nonobject_closes_connection :
    ∀ (w sv : Bool) (s : DaemonState) (v : PyJSON),
      isObj v = false →
      handleLine w sv (LineInput.parsed v) s
        = (LineOutcome.closedNoReply, s, [])
      ∧ handleLine w sv LineInput.malformed s
        = (LineOutcome.replied { ok := false, error := some "Invalid JSON" },
           s, [])
      ∧ (∀ c : String,
          ¬ (c = "status" ∨ c = "fan" ∨ c = "pump" ∨ c = "reconnect") →
          handleLine w sv
            (LineInput.parsed (PyJSON.jobj { cmd := c, value := none })) s
            = (LineOutcome.replied
                { ok := false, error := some ("Unknown command: " ++ c) },
               s, [])) := by
  intro w sv s v hv
  refine ⟨?_, rfl, ?_⟩
  · cases v with
    | jobj req => exact absurd hv (by simp [isObj])
    | jnull => rfl
    | jbool b => rfl
    | jnum n => rfl
    | jstr t => rfl
    | jarr => rfl
  · intro c hcs
    push_neg at hcs
    obtain ⟨n1, n2, n3, n4⟩ := hcs
    simp [handleLine, process_request_top, process_request, n1, n2, n3, n4]

/-- Witness for C10 on the JSON array line. -/
theorem C10_nonobject_closes_connection_witness :
    handleLine true true (LineInput.parsed PyJSON.jarr) freshDaemon
      = (LineOutcome.closedNoReply, freshDaemon, []) :=
  (C10_nonobject_closes_connection true true freshDaemon PyJSON.jarr rfl).1

/-! ## Claim C2: the range invariant -/

/-- The invariant asserted by the spec: fan_speed is an integer in [0,100]
and pump_mode is one of the four defined values 0..3. -/
def stateInv (s : DaemonState) : Prop :=
  (0 ≤ s.fan_speed ∧ s.fan_speed ≤ 100)
  ∧ (s.pump_mode = 0 ∨ s.pump_mode = 1 ∨ s.pump_mode = 2 ∨ s.pump_mode = 3)

/-- A load result whose entries, where present, are in range (files the
daemon itself wrote always are; missing or unreadable files load nothing). -/
def goodLoad : LoadResult → Prop
  | LoadResult.loaded f p =>
      (match f with
       | none => True
       | some v => 0 ≤ v ∧ v ≤ 100)
      ∧ (match p with
         | none => True
         | some v => v = 0 ∨ v = 1 ∨ v = 2 ∨ v = 3)
  | _ => True

/-- Fold a sequence of client requests (each with its external write/save
outcomes) over the daemon state. -/
def applyRequests : List (Bool × Bool × Request) → DaemonState → DaemonState
  | [], s => s
  | (w, sv, req) :: rest, s =>
      applyRequests rest (process_request w sv req s).2.1

theorem send_fan_speed_state (o : Origin) (w sv : Bool) (v : Int)
    (save : Bool) (s : DaemonState) :
    (send_fan_speed o w sv v save s).2.1.pump_mode = s.pump_mode
    ∧ ((send_fan_speed o w sv v save s).2.1.fan_speed = s.fan_speed
       ∨ (send_fan_speed o w sv v save s).2.1.fan_speed = v) := by
  cases hc : s.connected <;> cases w <;> cases save <;>
    simp [send_fan_speed, send_command, hc]

theorem send_pump_mode_state (o : Origin) (w sv : Bool) (v : Int)
    (save : Bool) (s : DaemonState) :
    (send_pump_mode o w sv v save s).2.1.fan_speed = s.fan_speed
    ∧ ((send_pump_mode o w sv v save s).2.1.pump_mode = s.pump_mode
       ∨ (send_pump_mode o w sv v save s).2.1.pump_mode = v) := by
  cases hc : s.connected <;> cases w <;> cases save <;>
    simp [send_pump_mode, send_command, hc]

theorem process_request_preserves_inv (w sv : Bool) (req : Request)
    (s : DaemonState) (h : stateInv s) :
    stateInv (process_request w sv req s).2.1 := by
  unfold process_request
  split
  · exact h
  split
  · match hv : req.value with
    | some (PyVal.int v) =>
        dsimp only
        split
        · exact h
        split
        · exact h
        case isFalse hr _ =>
          rw [not_not] at hr
          obtain ⟨hpm, hfs⟩ := send_fan_speed_state Origin.client w sv v true s
          refine ⟨?_, ?_⟩
          · rcases hfs with he | he <;> rw [he]
            · exact h.1
            · exact ⟨hr.1, hr.2⟩
          · rw [hpm]
            exact h.2
    | some PyVal.nonInt => exact h
    | none => exact h
  split
  · match hv : req.value with
    | some (PyVal.int v) =>
        dsimp only
        split
        · exact h
        split
        · exact h
        case isFalse hr _ =>
          rw [not_not] at hr
          obtain ⟨hfs, hpm⟩ := send_pump_mode_state Origin.client w sv v true s
          refine ⟨?_, ?_⟩
          · rw [hfs]
            exact h.1
          · rcases hpm with he | he <;> rw [he]
            · exact h.2
            · omega
    | some PyVal.nonInt => exact h
    | none => exact h
  split
  · split
    · exact h
    · exact h
  · exact h

theorem applyRequests_preserves_inv
    (reqs : List (Bool × Bool × Request)) (s : DaemonState)
    (h : stateInv s) : stateInv (applyRequests reqs s) := by
  induction reqs generalizing s with
  | nil => exact h
  | cons e rest ih =>
      obtain ⟨w, sv, req⟩ := e
      exact ih _ (process_request_preserves_inv w sv req s h)

/-- Claim C2 does not hold as stated: `_load_state` copies the file values
into `fan_speed` and `pump_mode` with no range check, so a state file with
fan 999 and pump 7 (well-formed JSON, but out of range) makes the startup
state violate the invariant with no client request at all. -/
theorem C2_invariant_cex :
    ¬ stateInv (initDaemon (LoadResult.loaded (some 999) (some 7))) := by
  intro h
  exact absurd h.1.2 (by decide)

/-- Claim C2 amended: provided the state file loaded at startup is missing,
unreadable, or carries in-range values (defaults fan=60 pump=0 fill the
gaps), the invariant fan_speed in [0,100] and pump_mode in 0..3 holds after
startup and after every sequence of client requests, whatever their
write/save outcomes. -/
theorem C2_invariant_of_good_load :
    ∀ (r : LoadResult) (reqs : List (Bool × Bool × Request)),
      goodLoad r → stateInv (applyRequests reqs (initDaemon r)) := by
  intro r reqs hr
  refine applyRequests_preserves_inv reqs _ ?_
  cases r with
  | noFile => exact ⟨by decide, by decide⟩
  | loadFailed => exact ⟨by decide, by decide⟩
  | loaded f p =>
      obtain ⟨h1, h2⟩ := hr
      cases f with
      | none =>
          cases p with
          | none =>
              exact ⟨by simp [initDaemon, load_state],
                by simp [initDaemon, load_state]⟩
          | some vp =>
              exact ⟨by simp [initDaemon, load_state],
                by simpa [initDaemon, load_state] using h2⟩
      | some vf =>
          cases p with
          | none =>
              exact ⟨by simpa [initDaemon, load_state] using h1,
                by simp [initDaemon, load_state]⟩
          | some vp =>
              exact ⟨by simpa [initDaemon, load_state] using h1,
                by simpa [initDaemon, load_state] using h2⟩

/-- Witness for C2 (amended): a state file with fan 80, pump 2, followed by
a fan request for 30 and an out-of-range pump request, keeps the invariant. -/
theorem C2_invariant_of_good_load_witness :
    stateInv (applyRequests
      [(true, true, fanReq (PyVal.int 30)), (true, true, pumpReq (PyVal.int 9))]
      (initDaemon (LoadResult.loaded (some 80) (some 2)))) :=
  C2_invariant_of_good_load (LoadResult.loaded (some 80) (some 2))
    [(true, true, fanReq (PyVal.int 30)), (true, true, pumpReq (PyVal.int 9))]
    (by exact ⟨⟨by decide, by decide⟩, by decide⟩)

/-! ## Claim C5: reconnect backoff -/

theorem reconnectDelays_head (outs : List AttemptOutcome) (d : Nat) :
    (reconnectDelays outs d).1.head? = none
    ∨ (reconnectDelays outs d).1.head? = some d := by
  cases outs with
  | nil => exact Or.inl rfl
  | cons o rest => cases o <;> exact Or.inr rfl

/-- Claim C5 fails on the code: `connect_ble` resets the delay at line 173
before `init_device` and the resyncs run, and the attempt can still fail
after that point — the `bytes()` ValueError raised while building the
resync frame when the persisted fan value is outside byte range (such as
the fan=999 state file that `_load_state` accepts verbatim) escapes to the
handler at line 189 and `connect_ble` returns False with the delay already
reset.  On the run early-fail, early-fail, early-fail, late-fail,
early-fail from the floor the slept delays are 1, 2, 4, 8, 2: the delay
after the fourth, failed, attempt is 2, not min(16, 60), so the sequence
neither doubles after each failed attempt nor is monotonically
non-decreasing. -/
theorem C5_backoff_cex :
    (reconnectDelays [AttemptOutcome.earlyFail, AttemptOutcome.earlyFail,
        AttemptOutcome.earlyFail, AttemptOutcome.lateFail,
        AttemptOutcome.earlyFail] 1).1 = [1, 2, 4, 8, 2]
    ∧ ¬ List.Chain' (fun a b => a ≤ b)
        (reconnectDelays [AttemptOutcome.earlyFail, AttemptOutcome.earlyFail,
            AttemptOutcome.earlyFail, AttemptOutcome.lateFail,
            AttemptOutcome.earlyFail] 1).1
    ∧ ¬ List.Chain' (fun a b => b = backoffStep a)
        (reconnectDelays [AttemptOutcome.earlyFail, AttemptOutcome.earlyFail,
            AttemptOutcome.earlyFail, AttemptOutcome.lateFail,
            AttemptOutcome.earlyFail] 1).1 := by
  refine ⟨rfl, ?_, ?_⟩
  · rw [show (reconnectDelays [AttemptOutcome.earlyFail, AttemptOutcome.earlyFail,
        AttemptOutcome.earlyFail, AttemptOutcome.lateFail,
        AttemptOutcome.earlyFail] 1).1 = [1, 2, 4, 8, 2] from rfl]
    intro h
    have h4 := (List.chain'_cons.mp (List.chain'_cons.mp
      (List.chain'_cons.mp (List.chain'_cons.mp h).2).2).2).1
    omega
  · rw [show (reconnectDelays [AttemptOutcome.earlyFail, AttemptOutcome.earlyFail,
        AttemptOutcome.earlyFail, AttemptOutcome.lateFail,
        AttemptOutcome.earlyFail] 1).1 = [1, 2, 4, 8, 2] from rfl]
    intro h
    have h4 := (List.chain'_cons.mp (List.chain'_cons.mp
      (List.chain'_cons.mp (List.chain'_cons.mp h).2).2).2).1
    exact absurd h4 (by decide)

/-- Claim C5 amended: across any run of the reconnect loop starting from a
delay within bounds (the loop always starts at the floor), every delay
slept between successive attempts stays within the floor 1 and the ceiling
60, consecutive delays always follow the capped doubling of either the
previous delay or of the freshly reset floor, the final delay is within
bounds and equals the floor as soon as any attempt succeeds — but only on
runs in which every failed attempt fails before the line-173 reset (device
not found, transport connect or start_notify failed) do the delays follow
the capped doubling of the previous delay exactly and form a monotonically
non-decreasing sequence; an attempt that fails after the reset restarts
the progression at min(2*1, 60) = 2. -/
theorem C5_backoff_policy :
    ∀ (outs : List AttemptOutcome) (d : Nat),
      RECONNECT_MIN_DELAY ≤ d → d ≤ RECONNECT_MAX_DELAY →
      (∀ x ∈ (reconnectDelays outs d).1,
        RECONNECT_MIN_DELAY ≤ x ∧ x ≤ RECONNECT_MAX_DELAY)
      ∧ List.Chain' (fun a b => b = backoffStep a
          ∨ b = backoffStep RECONNECT_MIN_DELAY) (reconnectDelays outs d).1
      ∧ RECONNECT_MIN_DELAY ≤ (reconnectDelays outs d).2
      ∧ (reconnectDelays outs d).2 ≤ RECONNECT_MAX_DELAY
      ∧ (AttemptOutcome.success ∈ outs →
          (reconnectDelays outs d).2 = RECONNECT_MIN_DELAY)
      ∧ (AttemptOutcome.lateFail ∉ outs →
          List.Chain' (fun a b => b = backoffStep a)
            (reconnectDelays outs d).1
          ∧ List.Chain' (fun a b => a ≤ b) (reconnectDelays outs d).1) := by
  intro outs
  induction outs with
  | nil =>
      intro d h1 h2
      exact ⟨by simp [reconnectDelays], by simp [reconnectDelays], h1, h2,
        by simp, fun _ => ⟨by simp [reconnectDelays], by simp [reconnectDelays]⟩⟩
  | cons o rest ih =>
      intro d h1 h2
      cases o with
      | success =>
          refine ⟨?_, ?_,
            by rw [show (reconnectDelays (AttemptOutcome.success :: rest) d).2
                = RECONNECT_MIN_DELAY from rfl],
            by rw [show (reconnectDelays (AttemptOutcome.success :: rest) d).2
                = RECONNECT_MIN_DELAY from rfl]; decide,
            fun _ => rfl, fun _ => ⟨?_, ?_⟩⟩
          · intro x hx
            have hx1 : x = d := by
              simpa [reconnectDelays, connectResult, connectDelayEffect] using hx
            rw [hx1]
            exact ⟨h1, h2⟩
          · simp [reconnectDelays, connectResult, connectDelayEffect]
          · simp [reconnectDelays, connectResult, connectDelayEffect]
          · simp [reconnectDelays, connectResult, connectDelayEffect]
      | earlyFail =>
          have hmin : RECONNECT_MIN_DELAY = 1 := rfl
          have hmax : RECONNECT_MAX_DELAY = 60 := rfl
          have hb : backoffStep d = min (d * 2) 60 := rfl
          rw [hmin] at h1
          rw [hmax] at h2
          have hb1 : RECONNECT_MIN_DELAY ≤ backoffStep d := by
            rw [hmin, hb]; omega
          have hb2 : backoffStep d ≤ RECONNECT_MAX_DELAY := by
            rw [hmax, hb]; omega
          have hdb : d ≤ backoffStep d := by
            rw [hb]; omega
          obtain ⟨ihB, ihC, ihF1, ihF2, ihS, ihNL⟩ :=
            ih (backoffStep d) hb1 hb2
          have hred : reconnectDelays (AttemptOutcome.earlyFail :: rest) d
              = (d :: (reconnectDelays rest (backoffStep d)).1,
                 (reconnectDelays rest (backoffStep d)).2) := rfl
          rw [hred]
          refine ⟨?_, ?_, ihF1, ihF2, ?_, ?_⟩
          · intro x hx
            rcases List.mem_cons.mp hx with he | he
            · rw [he, hmin]
              exact ⟨h1, h2⟩
            · exact ihB x he
          · refine List.chain'_cons'.mpr ⟨?_, ihC⟩
            intro b hb'
            rcases reconnectDelays_head rest (backoffStep d) with hh | hh
            · rw [hh] at hb'
              simp at hb'
            · rw [hh] at hb'
              have h5 := hb'
              simp at h5
              exact Or.inl h5.symm
          · intro ht
            have : AttemptOutcome.success ∈ rest := by simpa using ht
            exact ihS this
          · intro hnl
            have hnl1 : AttemptOutcome.lateFail ∉ rest :=
              fun hm => hnl (List.mem_cons_of_mem _ hm)
            obtain ⟨ihD, ihM⟩ := ihNL hnl1
            constructor
            · refine List.chain'_cons'.mpr ⟨?_, ihD⟩
              intro b hb'
              rcases reconnectDelays_head rest (backoffStep d) with hh | hh
              · rw [hh] at hb'
                simp at hb'
              · rw [hh] at hb'
                have h5 := hb'
                simp at h5
                exact h5.symm
            · refine List.chain'_cons'.mpr ⟨?_, ihM⟩
              intro b hb'
              rcases reconnectDelays_head rest (backoffStep d) with hh | hh
              · rw [hh] at hb'
                simp at hb'
              · rw [hh] at hb'
                have h5 := hb'
                simp at h5
                rw [h5.symm]
                exact hdb
      | lateFail =>
          have hb1 : RECONNECT_MIN_DELAY ≤ backoffStep RECONNECT_MIN_DELAY := by
            decide
          have hb2 : backoffStep RECONNECT_MIN_DELAY ≤ RECONNECT_MAX_DELAY := by
            decide
          obtain ⟨ihB, ihC, ihF1, ihF2, ihS, ihNL⟩ :=
            ih (backoffStep RECONNECT_MIN_DELAY) hb1 hb2
          have hred : reconnectDelays (AttemptOutcome.lateFail :: rest) d
              = (d :: (reconnectDelays rest
                   (backoffStep RECONNECT_MIN_DELAY)).1,
                 (reconnectDelays rest
                   (backoffStep RECONNECT_MIN_DELAY)).2) := rfl
          rw [hred]
          refine ⟨?_, ?_, ihF1, ihF2, ?_, ?_⟩
          · intro x hx
            rcases List.mem_cons.mp hx with he | he
            · rw [he]
              exact ⟨h1, h2⟩
            · exact ihB x he
          · refine List.chain'_cons'.mpr ⟨?_, ihC⟩
            intro b hb'
            rcases reconnectDelays_head rest
                (backoffStep RECONNECT_MIN_DELAY) with hh | hh
            · rw [hh] at hb'
              simp at hb'
            · rw [hh] at hb'
              have h5 := hb'
              simp at h5
              exact Or.inr h5.symm
          · intro ht
            have : AttemptOutcome.success ∈ rest := by simpa using ht
            exact ihS this
          · intro hnl
            exact absurd (List.mem_cons_self _ _) hnl

/-- Witness for C5 (amended): the bounds and the reset-on-success on a run
with a late failure, and the exact doubling and monotonicity on a run with
no late failure. -/
theorem C5_backoff_policy_witness :
    (∀ x ∈ (reconnectDelays [AttemptOutcome.earlyFail, AttemptOutcome.lateFail,
        AttemptOutcome.earlyFail, AttemptOutcome.success] 1).1,
      RECONNECT_MIN_DELAY ≤ x ∧ x ≤ RECONNECT_MAX_DELAY)
    ∧ (AttemptOutcome.success ∈ [AttemptOutcome.earlyFail, AttemptOutcome.lateFail,
        AttemptOutcome.earlyFail, AttemptOutcome.success] →
        (reconnectDelays [AttemptOutcome.earlyFail, AttemptOutcome.lateFail,
            AttemptOutcome.earlyFail, AttemptOutcome.success] 1).2
          = RECONNECT_MIN_DELAY)
    ∧ (AttemptOutcome.lateFail ∉ [AttemptOutcome.earlyFail,
        AttemptOutcome.earlyFail, AttemptOutcome.success] →
        List.Chain' (fun a b => b = backoffStep a)
          (reconnectDelays [AttemptOutcome.earlyFail, AttemptOutcome.earlyFail,
              AttemptOutcome.success] 1).1
        ∧ List.Chain' (fun a b => a ≤ b)
          (reconnectDelays [AttemptOutcome.earlyFail, AttemptOutcome.earlyFail,
              AttemptOutcome.success] 1).1) :=
  ⟨(C5_backoff_policy [AttemptOutcome.earlyFail, AttemptOutcome.lateFail,
      AttemptOutcome.earlyFail, AttemptOutcome.success] 1
      (by decide) (by decide)).1,
   (C5_backoff_policy [AttemptOutcome.earlyFail, AttemptOutcome.lateFail,
      AttemptOutcome.earlyFail, AttemptOutcome.success] 1
      (by decide) (by decide)).2.2.2.2.1,
   (C5_backoff_policy [AttemptOutcome.earlyFail, AttemptOutcome.earlyFail,
      AttemptOutcome.success] 1
      (by decide) (by decide)).2.2.2.2.2⟩


/-! ## Claim C6: device selection -/

def cexCfg : List Char := ['b', 'b']

def cexDev1 : BLEDevice :=
  { address := ['a', 'a'], name := some "CoolingSystem".toList }

def cexDev2 : BLEDevice := { address := ['b', 'b'], name := none }

/-- Claim C6 fails on the code: the selection loop tries the name-substring
test on every device even when an address is configured, so with address
"bb" configured and a scan list where a device named CoolingSystem precedes
the device with address "bb", the name match wins and the selected address
is "aa", not the configured exact match that appears in the scan. -/
theorem C6_address_priority_cex :
    cexCfg ≠ []
    ∧ pyLower cexCfg = pyLower cexDev2.address
    ∧ cexDev2 ∈ [cexDev1, cexDev2]
    ∧ selectDevice cexCfg [cexDev1, cexDev2] = some cexDev1.address
    ∧ cexDev1.address ≠ cexDev2.address := by
  refine ⟨by decide, by decide, by decide, by decide, by decide⟩

/-- Claim C6 amended: the candidate selected is the first device in scan
order that either matches the configured address exactly
(case-insensitively) or has a truthy advertised name containing
CoolingSystem case-insensitively — a configured address does not disable
name matching, so an earlier name match shadows a later exact address
match; selection is by name alone exactly when no address is configured;
and when no device passes either test the result is none, upon which
`connect_ble` returns False without connecting. -/
theorem C6_first_match_selection :
    ∀ (cfg : List Char) (devs : List BLEDevice),
      selectDevice cfg devs
        = (devs.find? (matchesDevice cfg)).map BLEDevice.address
      ∧ (selectDevice cfg devs = none
          ↔ ∀ d ∈ devs, matchesDevice cfg d = false)
      ∧ (∀ d : BLEDevice, matchesDevice [] d
          = (match d.name with
             | none => false
             | some n =>
                 decide (n ≠ []) && substrIn (pyLower DEVICE_NAME) (pyLower n))) := by
  intro cfg devs
  have hfind : selectDevice cfg devs
      = (devs.find? (matchesDevice cfg)).map BLEDevice.address := by
    induction devs with
    | nil => rfl
    | cons d rest ih =>
        cases hm : matchesDevice cfg d with
        | true => simp [selectDevice, hm, List.find?_cons_of_pos _ hm]
        | false => simp [selectDevice, hm, List.find?_cons_of_neg, ih]
  refine ⟨hfind, ?_, fun d => rfl⟩
  rw [hfind]
  simp [List.find?_eq_none]

/-! ## Claims C7 and C1: handshake ordering in the interleaved system -/

/-- The schedule in which the connect task runs its twelve actions to
completion with every write succeeding and no client activity. -/
def connOnlySched : List SchedItem :=
  [SchedItem.connStep true, SchedItem.connStep true, SchedItem.connStep true,
   SchedItem.connStep true, SchedItem.connStep true, SchedItem.connStep true,
   SchedItem.connStep true, SchedItem.connStep true, SchedItem.connStep true,
   SchedItem.connStep true, SchedItem.connStep true, SchedItem.connStep true]

theorem connect_run_trace (d0 : DaemonState) :
    (runSched connOnlySched (startSys d0)).trace
      = (handshakeFrames.map (TraceItem.frame Origin.init))
        ++ [TraceItem.frame Origin.resyncFan (fanFrame d0.fan_speed),
            TraceItem.frame Origin.resyncPump (pumpFrame d0.pump_mode)] := rfl

/-- Claim C7: in every reachable state of the interleaved connect phase, no
handshake frame is written after a resync frame and the pump resync never
precedes the fan resync (so the persisted fan and then pump settings go out
strictly after all handshake activity), and every state-file write in the
trace came from a client request — the resync itself, sent with save=False,
never writes the state file.  Moreover the undisturbed connect run sends
exactly the nine handshake frames in source order followed by the fan
resync and then the pump resync of the persisted values, with no save at
all. -/
theorem C7_resync_after_handshake :
    (∀ (d0 : DaemonState) (sys : Sys), Reachable (startSys d0) sys →
      followedBy isResyncFrame (isFrameOf Origin.init) sys.trace = false
      ∧ followedBy (isFrameOf Origin.resyncPump) (isFrameOf Origin.resyncFan)
          sys.trace = false
      ∧ sys.trace.all saveIsClient = true)
    ∧ ∀ d0 : DaemonState,
        (runSched connOnlySched (startSys d0)).trace
          = (handshakeFrames.map (TraceItem.frame Origin.init))
            ++ [TraceItem.frame Origin.resyncFan (fanFrame d0.fan_speed),
                TraceItem.frame Origin.resyncPump (pumpFrame d0.pump_mode)] := by
  constructor
  · intro d0 sys h
    have hc := connInv_reachable d0 sys h
    exact ⟨hc.noInitAfterResync, hc.noFanAfterPump, hc.savesClient⟩
  · exact connect_run_trace

/-- A schedule with a client fan request interleaved into the handshake,
used to instantiate the reachability hypothesis of the C7 theorem. -/
def demoSched : List SchedItem :=
  [SchedItem.connStep true, SchedItem.connStep true,
   SchedItem.clientStep true true (fanReq (PyVal.int 50)),
   SchedItem.connStep true, SchedItem.connStep true, SchedItem.connStep true,
   SchedItem.connStep true, SchedItem.connStep true, SchedItem.connStep true,
   SchedItem.connStep true, SchedItem.connStep true, SchedItem.connStep true,
   SchedItem.connStep true]

/-- Witness for C7 on a concrete reachable state with an interleaved client
request. -/
theorem C7_resync_after_handshake_witness :
    followedBy isResyncFrame (isFrameOf Origin.init)
      (runSched demoSched (startSys freshDaemon)).trace = false
    ∧ followedBy (isFrameOf Origin.resyncPump) (isFrameOf Origin.resyncFan)
        (runSched demoSched (startSys freshDaemon)).trace = false
    ∧ (runSched demoSched (startSys freshDaemon)).trace.all saveIsClient
        = true :=
  C7_resync_after_handshake.1 freshDaemon
    (runSched demoSched (startSys freshDaemon))
    (reachable_runSched demoSched (startSys freshDaemon))

/-- The interleaving that breaks claim C1: the connect task marks the
daemon connected and sends the first handshake frame, then at the next
await point the client handler processes a fan request (which passes the
connected check and writes its frame), then the connect task resumes the
handshake. -/
def raceSched : List SchedItem :=
  [SchedItem.connStep true, SchedItem.connStep true,
   SchedItem.clientStep true true (fanReq (PyVal.int 50)),
   SchedItem.connStep true]

/-- Claim C1 is violated by the code: because `connect_ble` sets
`self.connected = True` before running `init_device` (so that the
handshake frames themselves pass the `send_command` guard), a state is
reachable in which a client fan frame sits in the session trace before a
handshake frame — at that point fewer than the nine handshake frames have
been sent and the connect script is still pending. -/
theorem C1_client_frame_during_handshake :
    ∃ sys : Sys, Reachable (startSys freshDaemon) sys
      ∧ followedBy isClientFrame (isFrameOf Origin.init) sys.trace = true
      ∧ sys.trace.countP (isFrameOf Origin.init) < 9
      ∧ sys.script ≠ [] := by
  refine ⟨runSched raceSched (startSys freshDaemon),
    reachable_runSched _ _, by decide, by decide, by decide⟩
